import Mathlib

/-!
Verification of the dexcrow escrow-system sources against their
natural-language specification.

The Python sources are shallowly embedded: Python dictionaries become
association lists over an inductive value type `PyVal`, Python floats are
idealized as exact rationals, nondeterministic inputs (current time,
generated uuids, external HTTP outcomes) become explicit parameters, and
fallible code returns explicit error values.  Only the ASCII fragment of
Python string handling is modelled; all inputs appearing in the theorems
below are ASCII.
-/

namespace Dexcrow

/-- Embedding of a Python value as stored in the message dictionaries of
`protocols/escrow_protocol.py` and the agent modules.  Python `None` is
`null`; floats are idealized as exact rationals. -/
inductive PyVal where
  | str : String → PyVal
  | int : Int → PyVal
  | float : Rat → PyVal
  | bool : Bool → PyVal
  | list : List PyVal → PyVal
  | dict : List (String × PyVal) → PyVal
  | null : PyVal

/-- A Python dict with string keys, as used for protocol envelopes. -/
abbrev Msg := List (String × PyVal)

/-- Embedding of Python `d[k]` lookup returning `none` when the key is
absent (association lists model dicts; constructors below never repeat a
key, so first-match lookup agrees with dict semantics). -/
def msgGet (m : Msg) (k : String) : Option PyVal :=
  (m.find? (fun kv => kv.1 == k)).map Prod.snd

/-- Embedding of Python `d.get(k, default)`. -/
def msgGetD (m : Msg) (k : String) (d : PyVal) : PyVal :=
  (msgGet m k).getD d

/-- Embedding of `v[k]` on a `PyVal` that is a dict. -/
def pyDictGet (v : PyVal) (k : String) : Option PyVal :=
  match v with
  | .dict m => msgGet m k
  | _ => Option.none

/-! ### protocols/escrow_protocol.py : message constructors

Each Python constructor calls `datetime.now(...).isoformat()` and
`uuid4()`; those effects are passed in as the explicit parameters
`ts` (timestamp string) and `mid` (message id string). -/

/-- Embedding of `create_escrow_message` (escrow_protocol.py). -/
def create_escrow_message (ts mid : String) (escrow_data : Msg) : Msg :=
  [("type", .str "create_escrow"),
   ("timestamp", .str ts),
   ("msg_id", .str mid),
   ("data", .dict escrow_data)]

/-- Embedding of `create_deposit_message` (escrow_protocol.py). -/
def create_deposit_message (ts mid escrow_id : String) (asset_data : Msg)
    (transaction_hash : String) : Msg :=
  [("type", .str "deposit_request"),
   ("timestamp", .str ts),
   ("msg_id", .str mid),
   ("data", .dict [("escrow_id", .str escrow_id),
                   ("asset_data", .dict asset_data),
                   ("transaction_hash", .str transaction_hash)])]

/-- Embedding of `create_fulfillment_message` (escrow_protocol.py). -/
def create_fulfillment_message (ts mid escrow_id : String)
    (fulfillment_data : Msg) : Msg :=
  [("type", .str "fulfillment_request"),
   ("timestamp", .str ts),
   ("msg_id", .str mid),
   ("data", .dict [("escrow_id", .str escrow_id),
                   ("fulfillment_data", .dict fulfillment_data)])]

/-- Embedding of `create_dispute_message` (escrow_protocol.py). -/
def create_dispute_message (ts mid escrow_id : String)
    (dispute_data : Msg) : Msg :=
  [("type", .str "dispute_raised"),
   ("timestamp", .str ts),
   ("msg_id", .str mid),
   ("data", .dict [("escrow_id", .str escrow_id),
                   ("dispute_data", .dict dispute_data)])]

/-- Embedding of `create_oracle_verification_message` (escrow_protocol.py). -/
def create_oracle_verification_message (ts mid escrow_id : String)
    (transaction_data : Msg) : Msg :=
  [("type", .str "oracle_verification"),
   ("timestamp", .str ts),
   ("msg_id", .str mid),
   ("data", .dict [("escrow_id", .str escrow_id),
                   ("transaction_data", .dict transaction_data)])]

/-- Embedding of `create_status_update_message` (escrow_protocol.py). -/
def create_status_update_message (ts mid escrow_id old_status new_status
    reason : String) : Msg :=
  [("type", .str "status_update"),
   ("timestamp", .str ts),
   ("msg_id", .str mid),
   ("data", .dict [("escrow_id", .str escrow_id),
                   ("old_status", .str old_status),
                   ("new_status", .str new_status),
                   ("reason", .str reason)])]

/-- Embedding of a Python `Optional[str]` argument value. -/
def optStr (s : Option String) : PyVal :=
  match s with
  | some v => .str v
  | Option.none => .null

/-- Embedding of `create_error_message` (escrow_protocol.py); `details`
defaults to `None` in Python, carried here as `Option String`. -/
def protocol_error_message (ts mid error : String)
    (details : Option String) : Msg :=
  [("type", .str "error"),
   ("timestamp", .str ts),
   ("msg_id", .str mid),
   ("data", .dict [("error", .str error), ("details", optStr details)])]

/-- Embedding of `create_success_message` (escrow_protocol.py); the Python
body stores `data or {}`, so an absent payload becomes the empty dict. -/
def protocol_success_message (ts mid message : String)
    (data : Option Msg) : Msg :=
  [("type", .str "success"),
   ("timestamp", .str ts),
   ("msg_id", .str mid),
   ("data", .dict [("message", .str message),
                   ("data", .dict (data.getD []))])]

/-- Embedding of `create_heartbeat_message` (escrow_protocol.py); the
Python body computes `uptime` from the clock, passed here as `uptime`. -/
def create_heartbeat_message (ts mid agent_type status : String)
    (uptime : Int) : Msg :=
  [("type", .str "heartbeat"),
   ("timestamp", .str ts),
   ("msg_id", .str mid),
   ("data", .dict [("agent_type", .str agent_type),
                   ("status", .str status),
                   ("uptime", .int uptime)])]

/-- Embedding of `create_acknowledgement_message` (escrow_protocol.py). -/
def create_acknowledgement_message (ts mid original_msg_id : String) : Msg :=
  [("type", .str "acknowledgement"),
   ("timestamp", .str ts),
   ("msg_id", .str mid),
   ("data", .dict [("acknowledged_msg_id", .str original_msg_id)])]

/-- Embedding of `create_response_message` (escrow_protocol.py); the type
tag is the caller-supplied `response_type`. -/
def create_response_message (ts mid original_msg_id response_type : String)
    (response_data : Msg) : Msg :=
  [("type", .str response_type),
   ("timestamp", .str ts),
   ("msg_id", .str mid),
   ("data", .dict [("original_msg_id", .str original_msg_id),
                   ("response_data", .dict response_data)])]

/-- Embedding of `parse_message_type`: `message.get("type", "unknown")`. -/
def parse_message_type (m : Msg) : PyVal :=
  msgGetD m "type" (.str "unknown")

/-- Embedding of `parse_message_data`: `message.get("data", {})`. -/
def parse_message_data (m : Msg) : PyVal :=
  msgGetD m "data" (.dict [])

/-- Embedding of `validate_message`: all four required fields present. -/
def validate_message (m : Msg) : Bool :=
  ["type", "timestamp", "msg_id", "data"].all
    (fun field => m.any (fun kv => kv.1 == field))

/-- Embedding of `EscrowProtocolConstants.SUPPORTED_MESSAGE_TYPES`. -/
def SUPPORTED_MESSAGE_TYPES : List String :=
  ["create_escrow", "escrow_created", "deposit_request", "deposit_confirmed",
   "fulfillment_request", "fulfillment_confirmed", "release_request",
   "refund_request", "dispute_raised", "dispute_resolved", "status_update",
   "oracle_verification", "oracle_response", "heartbeat", "error", "success"]

/-- An envelope decodes back to the tag, timestamp, message id and payload
it was built from. -/
def RoundTrips (m : Msg) (tag ts mid : String) (d : PyVal) : Prop :=
  parse_message_type m = .str tag ∧
  msgGet m "timestamp" = some (.str ts) ∧
  msgGet m "msg_id" = some (.str mid) ∧
  parse_message_data m = d

/-- C7: `validate_message m` returns true exactly when all four fields
`type`, `timestamp`, `msg_id` and `data` occur among the keys of `m`. -/
theorem c7_validate_message_iff_all_fields_present (m : Msg) :
    validate_message m = true ↔
      ("type" ∈ m.map Prod.fst ∧ "timestamp" ∈ m.map Prod.fst ∧
       "msg_id" ∈ m.map Prod.fst ∧ "data" ∈ m.map Prod.fst) := by
  simp only [validate_message, List.all_cons, List.all_nil, Bool.and_true,
    Bool.and_eq_true, List.any_eq_true, beq_iff_eq, List.mem_map]

/-- C8: every envelope built by a protocol constructor decodes back to
exactly the tag, timestamp, message id and payload it was built from:
`parse_message_type` recovers the type tag and `parse_message_data` the
payload unchanged. -/
theorem c8_envelope_roundtrip (ts mid eid old_st new_st reason err ok atype
    st orig rtype : String) (d ad fd dd td rd : Msg)
    (details : Option String) (okData : Option Msg) (uptime : Int) :
    RoundTrips (create_escrow_message ts mid d)
      "create_escrow" ts mid (.dict d) ∧
    RoundTrips (create_deposit_message ts mid eid ad err)
      "deposit_request" ts mid
      (.dict [("escrow_id", .str eid), ("asset_data", .dict ad),
              ("transaction_hash", .str err)]) ∧
    RoundTrips (create_fulfillment_message ts mid eid fd)
      "fulfillment_request" ts mid
      (.dict [("escrow_id", .str eid), ("fulfillment_data", .dict fd)]) ∧
    RoundTrips (create_dispute_message ts mid eid dd)
      "dispute_raised" ts mid
      (.dict [("escrow_id", .str eid), ("dispute_data", .dict dd)]) ∧
    RoundTrips (create_oracle_verification_message ts mid eid td)
      "oracle_verification" ts mid
      (.dict [("escrow_id", .str eid), ("transaction_data", .dict td)]) ∧
    RoundTrips (create_status_update_message ts mid eid old_st new_st reason)
      "status_update" ts mid
      (.dict [("escrow_id", .str eid), ("old_status", .str old_st),
              ("new_status", .str new_st), ("reason", .str reason)]) ∧
    RoundTrips (protocol_error_message ts mid err details)
      "error" ts mid
      (.dict [("error", .str err), ("details", optStr details)]) ∧
    RoundTrips (protocol_success_message ts mid ok okData)
      "success" ts mid
      (.dict [("message", .str ok), ("data", .dict (okData.getD []))]) ∧
    RoundTrips (create_heartbeat_message ts mid atype st uptime)
      "heartbeat" ts mid
      (.dict [("agent_type", .str atype), ("status", .str st),
              ("uptime", .int uptime)]) ∧
    RoundTrips (create_acknowledgement_message ts mid orig)
      "acknowledgement" ts mid
      (.dict [("acknowledged_msg_id", .str orig)]) ∧
    RoundTrips (create_response_message ts mid orig rtype rd)
      rtype ts mid
      (.dict [("original_msg_id", .str orig),
              ("response_data", .dict rd)]) :=
  ⟨⟨rfl, rfl, rfl, rfl⟩, ⟨rfl, rfl, rfl, rfl⟩, ⟨rfl, rfl, rfl, rfl⟩,
   ⟨rfl, rfl, rfl, rfl⟩, ⟨rfl, rfl, rfl, rfl⟩, ⟨rfl, rfl, rfl, rfl⟩,
   ⟨rfl, rfl, rfl, rfl⟩, ⟨rfl, rfl, rfl, rfl⟩, ⟨rfl, rfl, rfl, rfl⟩,
   ⟨rfl, rfl, rfl, rfl⟩, ⟨rfl, rfl, rfl, rfl⟩⟩

/-- C10 counterexample: the response constructor's type tag is the
caller-supplied `response_type`, so at the concrete argument
`"not_in_catalog"` it produces an envelope whose type tag is not a member
of `SUPPORTED_MESSAGE_TYPES`, refuting the claim that every constructor's
type tag except the acknowledgement's lies in the catalog. -/
theorem c10_response_tag_outside_catalog :
    parse_message_type
        (create_response_message "t0" "m0" "orig0" "not_in_catalog" []) =
      .str "not_in_catalog" ∧
    "not_in_catalog" ∉ SUPPORTED_MESSAGE_TYPES :=
  ⟨rfl, by decide⟩

/-- C10 (amended): every envelope built by the eleven constructors carries
all four required fields and passes `validate_message`; the nine fixed
type tags are members of `SUPPORTED_MESSAGE_TYPES`; the acknowledgement
tag `"acknowledgement"` is not in the catalog; and the response
constructor's tag equals its caller-supplied `response_type` argument. -/
theorem c10_constructors_wellformed (ts mid eid old_st new_st reason err ok
    atype st orig rtype : String) (d ad fd dd td rd : Msg)
    (details : Option String) (okData : Option Msg) (uptime : Int) :
    (validate_message (create_escrow_message ts mid d) = true ∧
     validate_message (create_deposit_message ts mid eid ad err) = true ∧
     validate_message (create_fulfillment_message ts mid eid fd) = true ∧
     validate_message (create_dispute_message ts mid eid dd) = true ∧
     validate_message (create_oracle_verification_message ts mid eid td)
       = true ∧
     validate_message
       (create_status_update_message ts mid eid old_st new_st reason)
       = true ∧
     validate_message (protocol_error_message ts mid err details) = true ∧
     validate_message (protocol_success_message ts mid ok okData) = true ∧
     validate_message (create_heartbeat_message ts mid atype st uptime)
       = true ∧
     validate_message (create_acknowledgement_message ts mid orig) = true ∧
     validate_message (create_response_message ts mid orig rtype rd)
       = true) ∧
    ("create_escrow" ∈ SUPPORTED_MESSAGE_TYPES ∧
     "deposit_request" ∈ SUPPORTED_MESSAGE_TYPES ∧
     "fulfillment_request" ∈ SUPPORTED_MESSAGE_TYPES ∧
     "dispute_raised" ∈ SUPPORTED_MESSAGE_TYPES ∧
     "oracle_verification" ∈ SUPPORTED_MESSAGE_TYPES ∧
     "status_update" ∈ SUPPORTED_MESSAGE_TYPES ∧
     "error" ∈ SUPPORTED_MESSAGE_TYPES ∧
     "success" ∈ SUPPORTED_MESSAGE_TYPES ∧
     "heartbeat" ∈ SUPPORTED_MESSAGE_TYPES) ∧
    "acknowledgement" ∉ SUPPORTED_MESSAGE_TYPES ∧
    parse_message_type (create_response_message ts mid orig rtype rd)
      = .str rtype :=
  ⟨⟨rfl, rfl, rfl, rfl, rfl, rfl, rfl, rfl, rfl, rfl, rfl⟩,
   ⟨by decide, by decide, by decide, by decide, by decide, by decide,
    by decide, by decide, by decide⟩,
   by decide, rfl⟩

/-! ### shared/utils.py : address and transaction-hash validation

`validate_address` tests `address.startswith('0x') and len(address) == 42`
and then whether `int(address[2:], 16)` succeeds.  Python `int(s, 16)` is
embedded below for its ASCII fragment: it strips surrounding whitespace,
allows one leading sign, an optional `0x`/`0X` prefix (optionally followed
by one underscore), and hexadecimal digits separated by single
underscores. -/

/-- Hexadecimal digit, as accepted by Python `int(_, 16)`. -/
def isPyHexDigit (c : Char) : Bool :=
  c.isDigit || (decide ('a' ≤ c) && decide (c ≤ 'f')) ||
    (decide ('A' ≤ c) && decide (c ≤ 'F'))

/-- ASCII whitespace stripped by Python `int`. -/
def isPySpace (c : Char) : Bool :=
  c == ' ' || c == '\t' || c == '\n' || c == '\r' || c == '\x0b' || c == '\x0c'

/-- Drop leading and trailing whitespace. -/
def stripPySpaces (cs : List Char) : List Char :=
  ((cs.dropWhile isPySpace).reverse.dropWhile isPySpace).reverse

/-- Drop one optional leading sign. -/
def dropSign : List Char → List Char
  | '+' :: rest => rest
  | '-' :: rest => rest
  | cs => cs

/-- Continuation of a digit run: hex digits separated by single
underscores, never ending in an underscore. -/
def hexTail : List Char → Bool
  | [] => true
  | '_' :: c :: rest => isPyHexDigit c && hexTail rest
  | c :: rest => isPyHexDigit c && hexTail rest

/-- Nonempty digit run starting with a hex digit. -/
def hexBody : List Char → Bool
  | c :: rest => isPyHexDigit c && hexTail rest
  | [] => false

/-- Digit part after the optional sign: an optional `0x`/`0X` prefix may
precede the run, and one underscore may directly follow that prefix. -/
def hexAfterSign : List Char → Bool
  | '0' :: 'x' :: '_' :: rest => hexBody rest
  | '0' :: 'x' :: rest => hexBody rest
  | '0' :: 'X' :: '_' :: rest => hexBody rest
  | '0' :: 'X' :: rest => hexBody rest
  | cs => hexBody cs

/-- Whether Python `int(s, 16)` succeeds on the ASCII string `s`. -/
def pyIntOk16 (s : String) : Bool :=
  hexAfterSign (dropSign (stripPySpaces s.toList))

/-- Embedding of `validate_address` (shared/utils.py): empty strings are
falsy, then `startswith('0x')`, `len == 42`, and `int(address[2:], 16)`
must succeed. -/
def validate_address (address : String) : Bool :=
  if address == "" then false
  else
    let cs := address.toList
    if cs.take 2 == ['0', 'x'] && cs.length == 42 then
      pyIntOk16 (String.mk (cs.drop 2))
    else false

/-- Embedding of `validate_transaction_hash` (shared/utils.py): as the
address validator but with total length 66. -/
def validate_transaction_hash (tx_hash : String) : Bool :=
  if tx_hash == "" then false
  else
    let cs := tx_hash.toList
    if cs.take 2 == ['0', 'x'] && cs.length == 66 then
      pyIntOk16 (String.mk (cs.drop 2))
    else false

/-- Modelled from the spec: a string is a hex literal of `n` digits when
it is exactly the literal prefix `0x` followed by exactly `n` hexadecimal
characters.  This is the claim-side predicate the validators are compared
against. -/
def specHexLiteral (n : Nat) (s : String) : Bool :=
  let cs := s.toList
  cs.take 2 == ['0', 'x'] && cs.length == n + 2 &&
    (cs.drop 2).all isPyHexDigit

/-- A 42-character string accepted by `validate_address` although its
suffix is not 40 hexadecimal characters: Python `int(_, 16)` accepts a
leading sign. -/
def c3FailingAddress : String :=
  "0x+000000000000000000000000000000000000000"

/-- C3: at the failing input `"0x+"` followed by 39 zeros, the address
validator returns true even though the input is not `0x` followed by 40
hexadecimal characters, because Python `int(_, 16)` accepts a sign
character; so acceptance is not equivalent to the 40-hex-digit format. -/
theorem c3_validate_address_accepts_signed_input :
    validate_address c3FailingAddress = true ∧
    specHexLiteral 40 c3FailingAddress = false := by
  constructor <;> rfl

/-! ### agents/arbiter_agent.py : dispute analysis -/

/-- Result dictionary built by `analyze_dispute`, with the fields the
Python dict carries; the `parties` sub-dict is flattened to its two
entries. -/
structure DisputeAnalysis where
  dispute_id : PyVal
  buyer : PyVal
  seller : PyVal
  evidence : List PyVal
  recommendation : String
  confidence : Rat
  reasoning : String
  required_evidence : List String

/-- Embedding of `analyze_dispute` (arbiter_agent.py).  The Python
function reads `dispute_id`, the two party addresses and the evidence
list out of its input dict; those reads are the parameters here.  It
first fills a default analysis and then overwrites recommendation,
confidence and reasoning according to the evidence count. -/
def analyze_dispute (dispute_id buyer seller : PyVal)
    (evidence : List PyVal) : DisputeAnalysis :=
  let analysis : DisputeAnalysis :=
    { dispute_id := dispute_id, buyer := buyer, seller := seller,
      evidence := evidence,
      recommendation := "REQUIRES_MORE_EVIDENCE", confidence := 1/2,
      reasoning := "Insufficient evidence to make a decision",
      required_evidence :=
        ["Transaction proof", "Communication logs", "Delivery confirmation"] }
  let evidence_count := evidence.length
  if 3 ≤ evidence_count then
    { analysis with
      recommendation := "RELEASE_FUNDS"
      confidence := 4/5
      reasoning := "Sufficient evidence supports seller\x27s claim" }
  else if 1 ≤ evidence_count then
    { analysis with
      recommendation := "REFUND_FUNDS"
      confidence := 3/5
      reasoning := "Evidence supports buyer\x27s claim" }
  else analysis

/-- Modelled from the spec: the recommendation table of §4.3 as a function
of the evidence count alone. -/
def specArbiterTable (n : Nat) : String × Rat :=
  if n = 0 then ("REQUIRES_MORE_EVIDENCE", 1/2)
  else if n ≤ 2 then ("REFUND_FUNDS", 3/5)
  else ("RELEASE_FUNDS", 4/5)

/-- C2: the recommendation and confidence produced by `analyze_dispute`
agree with the spec table evaluated at the number of evidence items, for
every dispute; in particular they depend only on the evidence count,
never on the content of the evidence or the other dispute fields. -/
theorem c2_analyze_dispute_matches_spec_table (dispute_id buyer seller :
    PyVal) (evidence : List PyVal) :
    ((analyze_dispute dispute_id buyer seller evidence).recommendation,
     (analyze_dispute dispute_id buyer seller evidence).confidence) =
      specArbiterTable evidence.length := by
  match evidence with
  | [] => rfl
  | [a] => rfl
  | [a, b] => rfl
  | a :: b :: c :: rest =>
    simp only [analyze_dispute, specArbiterTable, List.length_cons]
    have h3 : 3 ≤ rest.length + 1 + 1 + 1 := by omega
    rw [if_pos h3, if_neg (by omega), if_neg (by omega)]

/-! ### shared/utils.py : amount formatting and fee computation

`format_amount` runs `float(amount)` and renders `f"{x:.{decimals}f}"`;
`calculate_fees` runs `float(amount)` and formats each derived quantity.
The embedding idealizes a successfully parsed finite float as an exact
rational, so a string argument becomes `Option Rat`: `some q` for a parse
yielding the value `q`, `Option.none` for a string on which `float(_)`
raises (the `except` branch).  Infinities and NaN are outside the
modelled fragment. -/

/-- Left-pad a digit string with zeros to length `n`. -/
def padZeros (s : String) (n : Nat) : String :=
  String.mk (List.replicate (n - s.length) '0') ++ s

/-- Embedding of `format_amount` (shared/utils.py): fixed-point rendering
with `decimals` fractional digits, or the literal `"0.0"` when parsing
failed.  Rounding of an exact value is injected at the formatting step as
round-half-up; the theorems below only evaluate it away from ties, where
it agrees with the
float formatting of the source. -/
def format_amount (amount : Option Rat) (decimals : Nat) : String :=
  match amount with
  | Option.none => "0.0"
  | some q =>
    let signStr := if q < 0 then "-" else ""
    let scaled : Int := round (|q| * (10 : Rat) ^ decimals)
    let base : Int := (10 : Int) ^ decimals
    if decimals = 0 then signStr ++ toString (scaled / base)
    else
      signStr ++ toString (scaled / base) ++ "." ++
        padZeros (toString (scaled % base)) decimals

/-- The four strings returned by `calculate_fees`. -/
structure FeeBreakdown where
  total : String
  platform_fee : String
  arbiter_fee : String
  net_amount : String
deriving DecidableEq

/-- Embedding of `calculate_fees` (shared/utils.py): on a parsed amount
the three derived quantities are computed exactly as in the source and
each is formatted with the default 18 decimals; on a parse failure all
four fields are the literal `"0.0"`. -/
def calculate_fees (amount : Option Rat)
    (platform_fee_percentage arbiter_fee_percentage : Rat) : FeeBreakdown :=
  match amount with
  | Option.none =>
    { total := "0.0", platform_fee := "0.0", arbiter_fee := "0.0",
      net_amount := "0.0" }
  | some amount_float =>
    let platform_fee := amount_float * (platform_fee_percentage / 100)
    let arbiter_fee := amount_float * (arbiter_fee_percentage / 100)
    let net_amount := amount_float - platform_fee - arbiter_fee
    { total := format_amount (some amount_float) 18
      platform_fee := format_amount (some platform_fee) 18
      arbiter_fee := format_amount (some arbiter_fee) 18
      net_amount := format_amount (some net_amount) 18 }

/-- C4: for every parsed amount `A ≥ 0` and fee percentages `p`, `a`,
`calculate_fees` returns the formatted renderings of `A`, `A*p/100`,
`A*a/100` and `A - A*p/100 - A*a/100`; the three parts sum back to `A`
exactly; and on amount `"100"` with fees `0.5` and `1.0` the net amount
renders as `98.5` with the default 18 fractional digits. -/
theorem c4_calculate_fees_exact (A p a : Rat) (hA : 0 ≤ A) :
    calculate_fees (some A) p a =
      { total := format_amount (some A) 18
        platform_fee := format_amount (some (A * (p / 100))) 18
        arbiter_fee := format_amount (some (A * (a / 100))) 18
        net_amount :=
          format_amount (some (A - A * (p / 100) - A * (a / 100))) 18 } ∧
    A * (p / 100) + A * (a / 100) +
      (A - A * (p / 100) - A * (a / 100)) = A ∧
    (calculate_fees (some 100) (1/2) 1).net_amount =
      "98.500000000000000000" := by
  refine ⟨rfl, by ring, ?_⟩
  show format_amount (some ((100 : Rat) - 100 * (1/2/100) - 100 * (1/100)))
      18 = "98.500000000000000000"
  have h1 : (100 : Rat) - 100 * (1/2/100) - 100 * (1/100) = 197/2 := by
    norm_num
  rw [h1]
  have hneg : ¬ ((197/2 : Rat) < 0) := by norm_num
  have habs : |(197/2 : Rat)| = 197/2 := abs_of_nonneg (by norm_num)
  have hround : round (|(197/2 : Rat)| * (10 : Rat) ^ (18 : Nat)) =
      (98500000000000000000 : Int) := by
    rw [habs]
    have h2 : (197/2 : Rat) * (10 : Rat) ^ (18 : Nat) =
        ((98500000000000000000 : Int) : Rat) := by norm_num
    rw [h2, round_intCast]
  simp only [format_amount, hround, if_neg hneg]
  norm_num
  rfl

/-- C4 witness at `A = 100`, `p = 1/2`, `a = 1`. -/
theorem c4_calculate_fees_exact_witness :
    (0 : Rat) ≤ 100 ∧
    (calculate_fees (some 100) (1/2) 1 =
      { total := format_amount (some (100 : Rat)) 18
        platform_fee := format_amount (some ((100 : Rat) * (1/2 / 100))) 18
        arbiter_fee := format_amount (some ((100 : Rat) * (1 / 100))) 18
        net_amount := format_amount
          (some ((100 : Rat) - 100 * (1/2 / 100) - 100 * (1 / 100))) 18 } ∧
     (100 : Rat) * (1/2 / 100) + 100 * (1 / 100) +
       (100 - 100 * (1/2 / 100) - 100 * (1 / 100)) = 100 ∧
     (calculate_fees (some 100) (1/2) 1).net_amount =
       "98.500000000000000000") :=
  ⟨by norm_num, c4_calculate_fees_exact 100 (1/2) 1 (by norm_num)⟩

/-- C5: when parsing the input fails, `format_amount` returns the literal
`"0.0"` for every decimals argument and `calculate_fees` returns the
all-zero breakdown for all fee percentages; both functions are total, so
no string input raises. -/
theorem c5_parse_failure_yields_zero (decimals : Nat) (p a : Rat) :
    format_amount Option.none decimals = "0.0" ∧
    calculate_fees Option.none p a =
      { total := "0.0", platform_fee := "0.0", arbiter_fee := "0.0",
        net_amount := "0.0" } :=
  ⟨rfl, rfl⟩

/-! ### shared/models.py : data model, and shared/utils.py validation -/

/-- Embedding of the `TradeType` enum (shared/models.py). -/
inductive TradeType where
  | CRYPTO
  | FIAT_P2P
  | CROSS_CHAIN
deriving DecidableEq

/-- Embedding of the `AssetType` enum (shared/models.py). -/
inductive AssetType where
  | ETH
  | ERC20
  | ERC721
  | ERC1155
  | BTC
  | FIAT
deriving DecidableEq

/-- Embedding of the `ChainType` enum (shared/models.py). -/
inductive ChainType where
  | ETHEREUM
  | BASE
  | CELO
  | OPTIMISM
  | BSC
  | BITCOIN
deriving DecidableEq

/-- Embedding of the `EscrowState` enum (shared/models.py). -/
inductive EscrowState where
  | AWAITING_DEPOSIT
  | AWAITING_FULFILLMENT
  | DISPUTE_RAISED
  | COMPLETED
  | CANCELED
deriving DecidableEq

/-- Embedding of the `Asset` dataclass (shared/models.py). -/
structure Asset where
  type : AssetType
  address : Option String
  amount : String
  chain : ChainType
  symbol : Option String
  decimals : Nat
  name : Option String
deriving DecidableEq

/-- Embedding of the `EscrowTerms` dataclass (shared/models.py); the fee
percentages are floats in the source, idealized as rationals. -/
structure EscrowTerms where
  description : String
  deadline : Int
  auto_release_hours : Option Int
  dispute_window_hours : Int
  arbiter_fee_percentage : Rat
  platform_fee_percentage : Rat
deriving DecidableEq

/-- Embedding of the `EscrowData` dataclass (shared/models.py), restricted
to the fields the validation and lifecycle logic reads. -/
structure EscrowData where
  escrow_id : String
  contract_address : Option String
  status : EscrowState
  trade_type : TradeType
  buyer_address : String
  seller_address : String
  arbiter_address : String
  asset_a : Option Asset
  asset_b : Option Asset
  terms : Option EscrowTerms
  created_at : Int
  updated_at : Int
deriving DecidableEq

/-- Python falsiness of an optional asset: `not escrow_data.asset_a or not
escrow_data.asset_a.amount` is true when the asset is `None` or its amount
string is empty. -/
def assetMissing (a : Option Asset) : Bool :=
  match a with
  | Option.none => true
  | some x => x.amount == ""

/-- Same falsiness test for the terms description. -/
def termsDescriptionMissing (t : Option EscrowTerms) : Bool :=
  match t with
  | Option.none => true
  | some x => x.description == ""

/-- The deadline test fires only when terms are present:
`escrow_data.terms and escrow_data.terms.deadline <= int(time.time())`. -/
def deadlinePassed (now : Int) (t : Option EscrowTerms) : Bool :=
  match t with
  | Option.none => false
  | some x => decide (x.deadline ≤ now)

/-- Embedding of `validate_escrow_data` (shared/utils.py); the call to
`int(time.time())` is passed in as `now`.  The checks run in source
order and every violated rule appends its message. -/
def validate_escrow_data (now : Int) (d : EscrowData) : List String :=
  (if !(validate_address d.buyer_address)
    then ["Invalid buyer address"] else []) ++
  (if !(validate_address d.seller_address)
    then ["Invalid seller address"] else []) ++
  (if !(validate_address d.arbiter_address)
    then ["Invalid arbiter address"] else []) ++
  (if d.escrow_id == "" || d.escrow_id.length < 10
    then ["Invalid escrow ID"] else []) ++
  (if assetMissing d.asset_a then ["Asset A is required"] else []) ++
  (if assetMissing d.asset_b then ["Asset B is required"] else []) ++
  (if termsDescriptionMissing d.terms
    then ["Escrow description is required"] else []) ++
  (if deadlinePassed now d.terms
    then ["Deadline must be in the future"] else [])

/-- Terms whose fee percentages sum to 120, far above the 100 bound. -/
def c6Terms : EscrowTerms :=
  { description := "swap two assets"
    deadline := 2000
    auto_release_hours := Option.none
    dispute_window_hours := 24
    arbiter_fee_percentage := 60
    platform_fee_percentage := 60 }

/-- An escrow datum that is valid in every checked field but carries the
over-100 fee split of `c6Terms`. -/
def c6Escrow : EscrowData :=
  { escrow_id := "escrow_1700000000_abcdef12"
    contract_address := Option.none
    status := .AWAITING_DEPOSIT
    trade_type := .CRYPTO
    buyer_address := "0x0000000000000000000000000000000000000001"
    seller_address := "0x0000000000000000000000000000000000000002"
    arbiter_address := "0x0000000000000000000000000000000000000003"
    asset_a := some { type := .ETH, address := Option.none, amount := "1",
                      chain := .ETHEREUM, symbol := Option.none,
                      decimals := 18, name := Option.none }
    asset_b := some { type := .ETH, address := Option.none, amount := "1",
                      chain := .ETHEREUM, symbol := Option.none,
                      decimals := 18, name := Option.none }
    terms := some c6Terms
    created_at := 1000
    updated_at := 1000 }

/-- C6 counterexample: `c6Escrow` has fee percentages summing to 120, yet
`validate_escrow_data` (at time 1000, before the deadline) returns the
empty error list — validation accepts it, so the claimed rejection of
fee splits at or above 100 does not happen. -/
theorem c6_high_fees_pass_validation :
    validate_escrow_data 1000 c6Escrow = [] ∧
    c6Escrow.terms = some c6Terms ∧
    (100 : Rat) ≤ c6Terms.platform_fee_percentage +
      c6Terms.arbiter_fee_percentage :=
  ⟨rfl, rfl, by norm_num [c6Terms]⟩

/-- Replace the fee percentages of an escrow datum, when terms exist. -/
def setFeePercentages (d : EscrowData) (p a : Rat) : EscrowData :=
  { d with
    terms := d.terms.map (fun t =>
      { t with platform_fee_percentage := p,
               arbiter_fee_percentage := a }) }

/-- C6 (amended): `validate_escrow_data` performs no check at all on the
fee percentages — its error list is unchanged under any modification of
the two fee fields — so an escrow datum whose fees sum to 100 or more but
whose other fields are valid is accepted with an empty error list. -/
theorem c6_validation_ignores_fee_percentages (now : Int) (d : EscrowData)
    (p a : Rat) :
    validate_escrow_data now (setFeePercentages d p a) =
      validate_escrow_data now d := by
  rcases d with ⟨eid, ca, st, tt, ba, sa, aa, A, B, tm, cr, up⟩
  cases tm with
  | none => rfl
  | some t => cases t; rfl

/-! ### EscrowRegistry lifecycle

The source defines only the `EscrowState` enum (shared/models.py); the
registry that applies guarded transitions is absent from the repository,
so its command set and transition function are modelled from the spec
(§4.1). -/

/-- Modelled from the spec: the mutating commands of the missing
`EscrowRegistry` (§4.1) — deposit, confirmFulfillment, raiseDispute, the
two resolveDispute decisions, and the cancel path out of
AWAITING_DEPOSIT. -/
inductive EscrowCommand where
  | deposit
  | confirmFulfillment
  | raiseDispute
  | resolveRelease
  | resolveRefund
  | cancel
deriving DecidableEq

/-- Modelled from the spec: the registry error taxonomy (§7) restricted
to the errors the lifecycle theorems need. -/
inductive RegistryError where
  | invalidStateError
  | notFoundError
deriving DecidableEq

/-- Modelled from the spec: the guarded transition function of the
missing `EscrowRegistry` (§4.1): each legal (status, command) pair maps
to its successor status and every other pair to `none`. -/
def legalTransition : EscrowState → EscrowCommand → Option EscrowState
  | .AWAITING_DEPOSIT, .deposit => some .AWAITING_FULFILLMENT
  | .AWAITING_FULFILLMENT, .confirmFulfillment => some .COMPLETED
  | .AWAITING_DEPOSIT, .raiseDispute => some .DISPUTE_RAISED
  | .AWAITING_FULFILLMENT, .raiseDispute => some .DISPUTE_RAISED
  | .DISPUTE_RAISED, .resolveRelease => some .COMPLETED
  | .DISPUTE_RAISED, .resolveRefund => some .CANCELED
  | .AWAITING_DEPOSIT, .cancel => some .CANCELED
  | _, _ => Option.none

/-- A registry entry: the escrow id with its current status. -/
structure Escrow where
  escrow_id : String
  status : EscrowState
deriving DecidableEq

/-- A registry is a store of escrows keyed by id. -/
abbrev Registry := List (String × Escrow)

/-- Look an escrow up by id. -/
def regFind (reg : Registry) (id : String) : Option Escrow :=
  (reg.find? (fun kv => kv.1 == id)).map Prod.snd

/-- Modelled from the spec: the missing registry applying one command to
one escrow.  The returned pair is the registry after the command and the
error reported, if any; an unknown id or an out-of-order command leaves
the store untouched and reports the error explicitly (§4.1 tie-break
policy, §7). -/
def registryStep (reg : Registry) (id : String) (c : EscrowCommand) :
    Registry × Option RegistryError :=
  match regFind reg id with
  | Option.none => (reg, some .notFoundError)
  | some e =>
    match legalTransition e.status c with
    | Option.none => (reg, some .invalidStateError)
    | some s2 =>
      (reg.map (fun kv =>
        if kv.1 == id then (kv.1, { e with status := s2 }) else kv),
       Option.none)

/-- The transition graph exactly as the claim words it: deposit advances
AWAITING_DEPOSIT to AWAITING_FULFILLMENT, fulfillment completes,
DISPUTE_RAISED is reachable from the first two states, and CANCELED from
AWAITING_DEPOSIT or from a dispute refund. -/
def allowedByGraph (s : EscrowState) (c : EscrowCommand) : Prop :=
  (s = .AWAITING_DEPOSIT ∧ c = .deposit) ∨
  (s = .AWAITING_FULFILLMENT ∧ c = .confirmFulfillment) ∨
  (s = .AWAITING_DEPOSIT ∧ c = .raiseDispute) ∨
  (s = .AWAITING_FULFILLMENT ∧ c = .raiseDispute) ∨
  (s = .DISPUTE_RAISED ∧ c = .resolveRelease) ∨
  (s = .DISPUTE_RAISED ∧ c = .resolveRefund) ∨
  (s = .AWAITING_DEPOSIT ∧ c = .cancel)

instance (s : EscrowState) (c : EscrowCommand) :
    Decidable (allowedByGraph s c) := by
  unfold allowedByGraph
  infer_instance

/-- C1: for every stored escrow and every command that is not legal for
its current status under the transition graph, the registry reports
`invalidStateError` and the store — hence the escrow's status — is
returned unchanged: no out-of-order command is silently ignored or
partially applied. -/
theorem c1_illegal_command_rejected_unchanged (reg : Registry)
    (id : String) (c : EscrowCommand) (e : Escrow)
    (hfound : regFind reg id = some e)
    (hillegal : ¬ allowedByGraph e.status c) :
    registryStep reg id c = (reg, some .invalidStateError) := by
  have hnone : legalTransition e.status c = Option.none := by
    cases hs : e.status <;> cases hc : c <;>
      simp [legalTransition] <;>
      exact absurd (by simp [allowedByGraph, hs, hc]) hillegal
  simp [registryStep, hfound, hnone]

/-- A one-escrow registry already in the COMPLETED state. -/
def c1Registry : Registry :=
  [("escrow_1", { escrow_id := "escrow_1", status := .COMPLETED })]

/-- C1 witness: depositing into a COMPLETED escrow is rejected with
`invalidStateError` and the registry is unchanged. -/
theorem c1_illegal_command_rejected_unchanged_witness :
    (regFind c1Registry "escrow_1" =
        some { escrow_id := "escrow_1", status := .COMPLETED } ∧
     ¬ allowedByGraph EscrowState.COMPLETED .deposit) ∧
    registryStep c1Registry "escrow_1" .deposit =
      (c1Registry, some .invalidStateError) :=
  ⟨⟨rfl, by decide⟩,
   c1_illegal_command_rejected_unchanged c1Registry "escrow_1" .deposit
     { escrow_id := "escrow_1", status := .COMPLETED } rfl (by decide)⟩

/-! ### agents/oracle_agent.py : external verification -/

/-- Outcome of the external verification attempt inside
`verify_transaction_with_ai`: the HTTP request (or response indexing)
raised, the returned completion text failed to parse as JSON, or it
parsed to some value. -/
inductive OracleOutcome where
  | requestRaises : String → OracleOutcome
  | responseUnparseable : OracleOutcome
  | responseParsed : PyVal → OracleOutcome

/-- The failure dictionary every error path of
`verify_transaction_with_ai` returns. -/
def oracleFailure (err : String) : PyVal :=
  .dict [("verified", .bool false), ("confidence", .float 0),
         ("error", .str err)]

/-- Embedding of `verify_transaction_with_ai` (oracle_agent.py).  The
environment variable `ASI_ONE_API_KEY` is `apiKey` (`none` when unset;
the empty string is also falsy), and the external call's outcome is the
explicit `outcome` parameter.  Every failure path returns a value; the
function is total, mirroring that the Python body catches every
exception. -/
def verify_transaction_with_ai (apiKey : Option String)
    (outcome : OracleOutcome) : PyVal :=
  match apiKey with
  | Option.none => oracleFailure "AI service not configured"
  | some k =>
    if k == "" then oracleFailure "AI service not configured"
    else
      match outcome with
      | .requestRaises e => oracleFailure e
      | .responseUnparseable => oracleFailure "Failed to parse AI response"
      | .responseParsed r => r

/-- The surfaced result marks the verification failed with zero
confidence. -/
def surfacedAsFailure (v : PyVal) : Prop :=
  pyDictGet v "verified" = some (.bool false) ∧
  pyDictGet v "confidence" = some (.float 0)

/-- C9: every failure path of `verify_transaction_with_ai` — API key
missing or empty (for any outcome), the request raising, or the response
failing to parse — returns a value with `verified = False` and
`confidence = 0.0`; the function is total, so no input makes it raise. -/
theorem c9_oracle_failure_surfaced (apiKey : Option String) (e : String)
    (outcome : OracleOutcome) :
    surfacedAsFailure (verify_transaction_with_ai apiKey
      (.requestRaises e)) ∧
    surfacedAsFailure (verify_transaction_with_ai apiKey
      .responseUnparseable) ∧
    surfacedAsFailure (verify_transaction_with_ai Option.none outcome) ∧
    surfacedAsFailure (verify_transaction_with_ai (some "") outcome) := by
  refine ⟨?_, ?_, ⟨rfl, rfl⟩, ⟨rfl, rfl⟩⟩ <;>
    cases apiKey with
    | none => exact ⟨rfl, rfl⟩
    | some k =>
      by_cases hk : k == ""
      · simp only [verify_transaction_with_ai, if_pos hk]
        exact ⟨rfl, rfl⟩
      · simp only [verify_transaction_with_ai, if_neg hk]
        exact ⟨rfl, rfl⟩

end Dexcrow
